import Mathlib

/-
Verification of the reconciliation and consumption engine of the
xcontest-cashier repository (src/cashier/telegram_bot/__init__.py), as a
shallow embedding: the three Mongo collections become lists of typed
documents, `find_one` becomes `List.find?` (first document in collection
order), `update_one` with a `$set` patch becomes `updateOne` (patches the
first matching document), and each handler becomes a pure state-passing
function.  Async calls are modelled as completing sequentially in program
order; the fire-and-forget alert and update submissions of `process_flight`
are recorded in an operation trace in the order the code issues them.
-/

namespace Cashier

/-- Calendar date of a flight, as used by the source: `process_flight` reads
`flight.datetime.date()` and uses only its `isoformat()` string and its
`year`. -/
structure FDate where
  iso : String
  year : Int
deriving DecidableEq

/-- Modelled from the spec: the `Membership` type enumeration lives in
`cashier.telegram_bot.models`, which is not under src/.  The spec's data
model declares it as the open enumeration daily, yearly, ...; `other`
stands for any additional enumeration value beyond the two the engine
consumes. -/
inductive MembershipType where
  | daily
  | yearly
  | other
deriving DecidableEq

/-- The string stored in a membership document's `type` field
(`membership.value` in the source). -/
def MembershipType.toStr : MembershipType → String
  | .daily => "daily"
  | .yearly => "yearly"
  | .other => "other"

/-- Value held by a membership's `used_for` field when it is set: an ISO
date string (written by the daily branch) or a year integer (written by the
yearly branch). -/
inductive UsedFor where
  | onDate (iso : String)
  | onYear (y : Int)
deriving DecidableEq

/-- Pilot identity: a username plus the external id resolved by
`pilot.load_id` (stored via `pilot.as_dict()`). -/
structure Pilot where
  username : String
  xid : Nat
deriving DecidableEq

/-- A document of the `membership` collection, as inserted by `pair`:
`transaction_id`, `type` (here `mtype`), `pilot`, `date_paired`, and the
`used_for` field mutated by `process_flight`.  `mid` is the Mongo `_id`.
The document `pair` inserts omits `used_for`; Mongo's equality-with-null
filters treat a missing field as null, so the embedding represents both as
`none`. -/
structure Membership where
  mid : Nat
  transaction_id : String
  mtype : MembershipType
  pilot : Pilot
  date_paired : String
  used_for : Option UsedFor
deriving DecidableEq

/-- A bank transaction as used by the engine: its source-assigned id and
its amount. -/
structure Transaction where
  id : String
  amount : Int
deriving DecidableEq

/-- An activity record as delivered by the activity source: id, pilot, and
flight date. -/
structure Flight where
  id : String
  pilot : Pilot
  fdate : FDate
deriving DecidableEq

/-- A document of the `flights` collection: the flight data plus the
`processed` flag. -/
structure FlightDoc where
  id : String
  pilot : Pilot
  fdate : FDate
  processed : Bool
deriving DecidableEq

/-- Modelled from the spec: `Flight.as_dict` lives in `cashier.xcontest`,
which is not under src/.  The spec's activity pipeline persists a newly
seen record with processed = false, and `process_flight` reads the stored
document's `processed` field, so the serialised document carries
`processed := false`. -/
def Flight.as_dict (f : Flight) : FlightDoc :=
  { id := f.id, pilot := f.pilot, fdate := f.fdate, processed := false }

/-- The document store: the three collections of the source
(`db.transactions`, `db.membership`, `db.flights`), each a list in
collection order; `find_one` returns the first match. -/
structure Store where
  transactions : List Transaction
  membership : List Membership
  flights : List FlightDoc
deriving DecidableEq

/-- Mongo `update_one` with a `$set` patch: applies `patch` to the first
document satisfying `q`, leaving every other document unchanged; a no-op
when nothing matches. -/
def updateOne (q : α → Bool) (patch : α → α) : List α → List α
  | [] => []
  | d :: ds => if q d then patch d :: ds else d :: updateOne q patch ds

/-- The membership filter of `process_flight` (source lines 166-173):
`pilot.username` equals the record's pilot username, and the document
satisfies the `$or` of (type daily and `used_for` = the flight date's ISO
string), (type yearly and `used_for` = the flight date's year), or
(`used_for` = null). -/
def membershipFilter (username : String) (d : FDate) (m : Membership) : Bool :=
  m.pilot.username == username &&
    ((m.mtype == .daily && m.used_for == some (.onDate d.iso)) ||
     (m.mtype == .yearly && m.used_for == some (.onYear d.year)) ||
     m.used_for == none)

/-- The membership `find_one` issued by `process_flight` for a flight. -/
def matchedMembership (s : Store) (f : Flight) : Option Membership :=
  s.membership.find? (membershipFilter f.pilot.username f.fdate)

/-- One store write or outbound send issued by `process_flight`, recorded
in program order. -/
inductive Op where
  | insertFlight (fd : FlightDoc)
  | sendAlert (flightId : String)
  | setUsedFor (mid : Nat) (u : UsedFor)
  | setProcessed (flightId : String)
deriving DecidableEq

/-- Whether an operation is the `processed := true` flight update. -/
def Op.isSetProcessed : Op → Bool
  | .setProcessed _ => true
  | _ => false

/-- Result of `process_flight`: the store after all issued writes complete,
the offending-flight alert if one was sent (identified by the flight id it
reports), and the trace of issued operations. -/
structure FlightResult where
  store : Store
  alert : Option String
  trace : List Op
deriving DecidableEq

/-- The `processed := true` patch of `process_flight`'s final
`flights.update_one`. -/
def setProcessedPatch (fd : FlightDoc) : FlightDoc :=
  { fd with processed := true }

/-- The final flight update of `process_flight`:
`flights.update_one(\x7b"id": flight.id\x7d, \x7b"$set": \x7b"processed": True\x7d\x7d)`. -/
def markProcessed (fid : String) (l : List FlightDoc) : List FlightDoc :=
  updateOne (fun fd => fd.id == fid) setProcessedPatch l

/-- The membership update of `process_flight`:
`membership.update_one(\x7b"_id": membership["_id"]\x7d, \x7b"$set": \x7b"used_for": v\x7d\x7d)`. -/
def consume (mid : Nat) (u : UsedFor) (l : List Membership) : List Membership :=
  updateOne (fun m => m.mid == mid) (fun m => { m with used_for := some u }) l

/-- The part of `process_flight` after the idempotency guard (source lines
160-189): match a membership; on no match issue the offending-flight
alert, on a match set `used_for` for a yearly or daily membership (any
other enumeration value falls through both branches); finally set the
flight's `processed` flag. -/
def flight_body (s : Store) (f : Flight) (tr : List Op) : FlightResult :=
  match matchedMembership s f with
  | none =>
      { store := { s with flights := markProcessed f.id s.flights },
        alert := some f.id,
        trace := tr ++ [Op.sendAlert f.id, Op.setProcessed f.id] }
  | some m =>
      match m.mtype with
      | .yearly =>
          { store := { s with
              membership := consume m.mid (.onYear f.fdate.year) s.membership,
              flights := markProcessed f.id s.flights },
            alert := none,
            trace := tr ++ [Op.setUsedFor m.mid (.onYear f.fdate.year), Op.setProcessed f.id] }
      | .daily =>
          { store := { s with
              membership := consume m.mid (.onDate f.fdate.iso) s.membership,
              flights := markProcessed f.id s.flights },
            alert := none,
            trace := tr ++ [Op.setUsedFor m.mid (.onDate f.fdate.iso), Op.setProcessed f.id] }
      | .other =>
          { store := { s with flights := markProcessed f.id s.flights },
            alert := none,
            trace := tr ++ [Op.setProcessed f.id] }

/-- `process_flight` (source lines 148-189): look up the stored record by
id; if absent, insert it with `processed = false`; if present and already
processed, stop; otherwise run the matching and consumption body. -/
def process_flight (s : Store) (f : Flight) : FlightResult :=
  match s.flights.find? (fun d => d.id == f.id) with
  | none =>
      flight_body { s with flights := s.flights ++ [f.as_dict] } f [Op.insertFlight f.as_dict]
  | some ex =>
      if ex.processed then { store := s, alert := none, trace := [] }
      else flight_body s f []

/-- The `processed` flag of the stored record with the given id, as
`find_one` would report it. -/
def flightProcessed (s : Store) (fid : String) : Option Bool :=
  (s.flights.find? (fun d => d.id == fid)).map FlightDoc.processed

/-- An error raised during `_parse_pair_msg`.  The first three are the
ValueErrors of the source (wrong argument count, non-numeric transaction
id, unrecognised membership type); `lookupFailed` is the LookupError of an
unresolvable pilot username, which in Python is not a ValueError. -/
inductive PairErr where
  | badCount (n : Nat)
  | notNumeric
  | badType (s : String)
  | lookupFailed (username : String)
deriving DecidableEq

/-- Whether the error is a Python ValueError, the only class caught by
`pair`'s except clause. -/
def PairErr.isValueError : PairErr → Bool
  | .lookupFailed _ => false
  | _ => true

/-- The str() of the raised error: the f-strings of `_parse_pair_msg` for
the first two; for `badType` the message of the enum ValueError and for
`lookupFailed` the LookupError text, both modelled from the spec since the
models and lookup modules are not under src/. -/
def PairErr.msg : PairErr → String
  | .badCount n => "Expected 3 arguments, got " ++ toString n
  | .notNumeric => "Transaction ID must be numeric"
  | .badType s => s ++ " is not a valid Membership"
  | .lookupFailed u => "no pilot found for username " ++ u

/-- Python str.isnumeric as used on the transaction id argument: true iff
the string is nonempty and every character is numeric (restricted to ASCII
digits in this embedding). -/
def isNumericStr (t : String) : Bool :=
  !t.toList.isEmpty && t.toList.all Char.isDigit

/-- Python str.strip with no argument: remove whitespace from both ends. -/
def pyStrip (cs : List Char) : List Char :=
  ((cs.dropWhile Char.isWhitespace).reverse.dropWhile Char.isWhitespace).reverse

/-- Python str.split(" "): cut at every single space, keeping empty parts
(so consecutive spaces yield empty strings, as in Python). -/
def pySplitSpace : List Char → List (List Char)
  | [] => [[]]
  | c :: cs =>
      if c == ' ' then [] :: pySplitSpace cs
      else
        match pySplitSpace cs with
        | [] => [[c]]
        | w :: ws => (c :: w) :: ws

/-- Modelled from the spec: `Membership.from_str` lives in
`cashier.telegram_bot.models`, not under src/.  It parses the membership
type from free text and fails clearly (a ValueError) on unrecognised
input; `daily` and `yearly` are the documented enumeration names the
pairing flow accepts. -/
def MembershipType.from_str (s : String) : Except PairErr MembershipType :=
  if s == "daily" then .ok .daily
  else if s == "yearly" then .ok .yearly
  else .error (.badType s)

/-- Modelled from the spec: `Pilot.load_id` (cashier.xcontest, not under
src/) resolves a username to a stable external pilot id, failing with a
LookupError when the username is unresolvable.  The directory itself is an
external collaborator, passed in as `resolve`. -/
def loadPilot (resolve : String → Option Nat) (username : String) :
    Except PairErr Pilot :=
  match resolve username with
  | some xid => .ok { username := username, xid := xid }
  | none => .error (.lookupFailed username)

/-- The space-split parts of the stripped command text:
`message.text.strip().split(" ")`. -/
def partsOf (text : String) : List (List Char) :=
  pySplitSpace (pyStrip text.toList)

/-- The i-th argument of the command text, stripped again:
`parts[i].strip()`. -/
def argOf (text : String) (i : Nat) : String :=
  String.mk (pyStrip ((partsOf text).getD i []))

/-- `_parse_pair_msg` (source lines 74-98): split the text on spaces;
require exactly 4 parts (command plus 3 arguments); require a numeric
transaction id; parse the membership type; resolve the pilot.  Failures
are surfaced in exactly this order. -/
def parse_pair_msg (resolve : String → Option Nat) (text : String) :
    Except PairErr (String × MembershipType × Pilot) :=
  let parts := partsOf text
  if parts.length != 4 then .error (.badCount (parts.length - 1))
  else
    let trans_id := argOf text 1
    if !isNumericStr trans_id then .error .notNumeric
    else
      match MembershipType.from_str (argOf text 2) with
      | .error e => .error e
      | .ok mt =>
          match loadPilot resolve (argOf text 3) with
          | .error e => .error e
          | .ok pilot => .ok (trans_id, mt, pilot)

/-- What became of a `pair` invocation: a reply sent back to the invoking
operator (`message.answer`), or an error that escaped the handler because
`pair` only catches ValueError. -/
inductive PairOutcome where
  | replied (text : String)
  | propagated (e : PairErr)
deriving DecidableEq

/-- Result of `pair`: the store afterwards and the outcome. -/
structure PairResult where
  store : Store
  outcome : PairOutcome
deriving DecidableEq

/-- The conflict reply of `pair` (source lines 112-114), naming the
existing membership's type and its pilot's username. -/
def conflict_msg (existing : Membership) : String :=
  "This transaction is already paired as " ++ existing.mtype.toStr ++
    " for pilot " ++ existing.pilot.username ++ "."

/-- A Mongo `_id` not used by any membership in the store, standing for the
id Mongo assigns to an inserted document. -/
def freshMid (s : Store) : Nat :=
  (s.membership.map Membership.mid).foldr max 0 + 1

/-- `pair` (source lines 104-124): parse the command, replying with the
ValueError text plus ". Please see /help" when parsing raises one (a
lookup error is not a ValueError and propagates); on a transaction already
paired, reply with the conflict message and stop; otherwise insert the new
membership document (its `used_for` field absent, i.e. null) with
`date_paired` the current date, and reply "Okay, paired".  `today` is
`date.today().isoformat()`. -/
def pair (resolve : String → Option Nat) (today : String) (s : Store)
    (text : String) : PairResult :=
  match parse_pair_msg resolve text with
  | .error e =>
      if e.isValueError then
        { store := s, outcome := .replied (e.msg ++ ". Please see /help") }
      else
        { store := s, outcome := .propagated e }
  | .ok (transaction_id, mt, pilot) =>
      match s.membership.find? (fun m => m.transaction_id == transaction_id) with
      | some existing =>
          { store := s, outcome := .replied (conflict_msg existing) }
      | none =>
          { store := { s with membership := s.membership ++
              [{ mid := freshMid s, transaction_id := transaction_id,
                 mtype := mt, pilot := pilot, date_paired := today,
                 used_for := none }] },
            outcome := .replied "Okay, paired" }

/-- Modelled from the spec: `TransactionStorage.store_transaction`
(cashier.telegram_bot.models, not under src/) persists the transaction;
the unique index on the transaction id makes repeated delivery of the same
transaction a no-op (the conflict is swallowed, not an error). -/
def store_transaction (s : Store) (t : Transaction) : Store :=
  if s.transactions.any (fun x => x.id == t.id) then s
  else { s with transactions := s.transactions ++ [t] }

/-- Modelled from the spec: `Membership.from_amount` (models module, not
under src/) classifies an amount through a fixed amount-to-type lookup
table, raising ValueError for an amount outside the table;
`process_transaction` catches that ValueError into None.  `classify` is
that composite: the first table entry for the amount, or none. -/
def classify (table : List (Int × MembershipType)) (amount : Int) :
    Option MembershipType :=
  (table.find? (fun e => e.1 == amount)).map (fun e => e.2)

/-- Result of `process_transaction`: the store afterwards and the one
notification sent to the operator chat, which describes the transaction
and the suggested classification (none = unclassified), as
`new_transaction_msg(trans, membership)` renders both. -/
structure TransResult where
  store : Store
  notif : Transaction × Option MembershipType
deriving DecidableEq

/-- `process_transaction` (source lines 60-71): persist the transaction,
classify its amount (a ValueError from the lookup becomes None), and send
the notification describing the transaction and the suggestion. -/
def process_transaction (table : List (Int × MembershipType)) (s : Store)
    (t : Transaction) : TransResult :=
  { store := store_transaction s t,
    notif := (t, classify table t.amount) }

/-- One invocation of a pipeline handler, for stating store invariants
across arbitrary operation sequences. -/
inductive PipeOp where
  | flightOp (f : Flight)
  | transOp (table : List (Int × MembershipType)) (t : Transaction)
  | pairOp (resolve : String → Option Nat) (today : String) (text : String)

/-- The store after one pipeline operation. -/
def applyPipe (s : Store) : PipeOp → Store
  | .flightOp f => (process_flight s f).store
  | .transOp table t => (process_transaction table s t).store
  | .pairOp resolve today text => (pair resolve today s text).store

/-- The store after a sequence of pipeline operations. -/
def runPipe (s : Store) (ops : List PipeOp) : Store :=
  ops.foldl applyPipe s

/- General lemmas about find_one and update_one over list collections. -/

theorem find?_append_some {α} {p : α → Bool} {l₁ : List α} (l₂ : List α) {a : α}
    (h : l₁.find? p = some a) : (l₁ ++ l₂).find? p = some a := by
  induction l₁ with
  | nil => simp [List.find?] at h
  | cons x xs ih =>
      by_cases hx : p x
      · rw [List.find?_cons_of_pos _ hx] at h
        rw [List.cons_append, List.find?_cons_of_pos _ hx]
        exact h
      · rw [List.find?_cons_of_neg _ hx] at h
        rw [List.cons_append, List.find?_cons_of_neg _ hx]
        exact ih h

theorem find?_append_none {α} {p : α → Bool} {l₁ : List α} (l₂ : List α)
    (h : l₁.find? p = none) : (l₁ ++ l₂).find? p = l₂.find? p := by
  induction l₁ with
  | nil => simp
  | cons x xs ih =>
      by_cases hx : p x
      · rw [List.find?_cons_of_pos _ hx] at h
        exact absurd h (by simp)
      · rw [List.find?_cons_of_neg _ hx] at h
        rw [List.cons_append, List.find?_cons_of_neg _ hx]
        exact ih h

theorem updateOne_of_find?_none {α} {q : α → Bool} {f : α → α} {l : List α}
    (h : l.find? q = none) : updateOne q f l = l := by
  induction l with
  | nil => rfl
  | cons x xs ih =>
      by_cases hx : q x
      · rw [List.find?_cons_of_pos _ hx] at h
        exact absurd h (by simp)
      · rw [List.find?_cons_of_neg _ hx] at h
        simp [updateOne, hx, ih h]

theorem find?_updateOne_disjoint {α} {p q : α → Bool} {f : α → α} (l : List α)
    (hq : ∀ x, q x = true → p x = false)
    (hf : ∀ x, q x = true → p (f x) = false) :
    (updateOne q f l).find? p = l.find? p := by
  induction l with
  | nil => rfl
  | cons x xs ih =>
      by_cases hx : q x
      · have hpx : ¬ p x = true := by simp [hq x hx]
        have hpfx : ¬ p (f x) = true := by simp [hf x hx]
        rw [updateOne, if_pos hx, List.find?_cons_of_neg _ hpfx,
          List.find?_cons_of_neg _ hpx]
      · rw [updateOne, if_neg hx]
        by_cases hpx : p x
        · rw [List.find?_cons_of_pos _ hpx, List.find?_cons_of_pos _ hpx]
        · rw [List.find?_cons_of_neg _ hpx, List.find?_cons_of_neg _ hpx, ih]

theorem find?_updateOne_patch {α} {q : α → Bool} {f : α → α} {l : List α} {a : α}
    (h : l.find? q = some a) (hfa : q (f a) = true) :
    (updateOne q f l).find? q = some (f a) := by
  induction l with
  | nil => simp [List.find?] at h
  | cons x xs ih =>
      by_cases hx : q x
      · rw [List.find?_cons_of_pos _ hx] at h
        obtain rfl : x = a := by injection h
        rw [updateOne, if_pos hx, List.find?_cons_of_pos _ hfa]
      · rw [List.find?_cons_of_neg _ hx] at h
        rw [updateOne, if_neg hx, List.find?_cons_of_neg _ hx]
        exact ih h

theorem find?_updateOne_first {α} {p q : α → Bool} {f : α → α} {l : List α} {m : α}
    (hfind : l.find? p = some m) (hq : q m = true)
    (hqe : ∀ x ∈ l, q x = true → x = m) (hpm : p (f m) = true) :
    (updateOne q f l).find? p = some (f m) := by
  induction l with
  | nil => simp [List.find?] at hfind
  | cons x xs ih =>
      by_cases hpx : p x
      · rw [List.find?_cons_of_pos _ hpx] at hfind
        obtain rfl : x = m := by injection hfind
        rw [updateOne, if_pos hq, List.find?_cons_of_pos _ hpm]
      · rw [List.find?_cons_of_neg _ hpx] at hfind
        have hqx : ¬ q x = true := by
          intro hqx
          have : x = m := hqe x (List.mem_cons_self x xs) hqx
          exact hpx (this ▸ List.find?_some hfind)
        rw [updateOne, if_neg hqx, List.find?_cons_of_neg _ hpx]
        exact ih hfind (fun y hy => hqe y (List.mem_cons_of_mem x hy))

theorem find?_updateOne_self {α} {q : α → Bool} {f : α → α} {l : List α} {m : α}
    (hmem : m ∈ l) (hq : q m = true)
    (hqe : ∀ x ∈ l, q x = true → x = m) (hq2 : q (f m) = true) :
    (updateOne q f l).find? q = some (f m) := by
  have hfind : l.find? q = some m := by
    cases hf : l.find? q with
    | none => exact absurd hq (by simpa using List.find?_eq_none.mp hf m hmem)
    | some x =>
        have := hqe x (List.mem_of_find?_eq_some hf) (List.find?_some hf)
        rw [this]
  exact find?_updateOne_first hfind hq hqe hq2

/- Concrete sample data, used to instantiate the theorems below. -/

/-- A sample pilot. -/
def wPilot : Pilot := { username := "jan", xid := 7 }

/-- A sample flight date. -/
def wDate : FDate := { iso := "2024-05-01", year := 2024 }

/-- A sample unconsumed daily membership for the sample pilot. -/
def wDaily : Membership :=
  { mid := 1, transaction_id := "123", mtype := .daily, pilot := wPilot,
    date_paired := "2024-04-30", used_for := none }

/-- A sample store holding only the sample membership. -/
def wStore : Store := { transactions := [], membership := [wDaily], flights := [] }

/-- A sample activity record by the sample pilot on the sample date. -/
def wFlight : Flight := { id := "fl1", pilot := wPilot, fdate := wDate }

/-- A sample pilot directory that knows only the sample pilot. -/
def wResolve : String → Option Nat :=
  fun u => if u == "jan" then some 7 else none

/- Characterization of the membership filter. -/

theorem membershipFilter_iff (u : String) (d : FDate) (m : Membership) :
    membershipFilter u d m = true ↔
      (m.pilot.username = u ∧
        ((m.mtype = .daily ∧ m.used_for = some (.onDate d.iso)) ∨
         (m.mtype = .yearly ∧ m.used_for = some (.onYear d.year)) ∨
         m.used_for = none)) := by
  simp [membershipFilter, Bool.and_eq_true, Bool.or_eq_true, beq_iff_eq,
    or_assoc]

/-- C1: for every activity record, the membership query of `process_flight`
asks for a membership whose pilot.username equals the record's pilot
username and which satisfies exactly one of: type daily with `used_for`
equal to the record's ISO date, type yearly with `used_for` equal to the
record's calendar year, or `used_for` unset (the three cases are mutually
exclusive); and the query can only return a membership of the store that
satisfies this predicate. -/
theorem process_flight_match_spec (u : String) (d : FDate) (m : Membership) :
    (membershipFilter u d m = true ↔
      (m.pilot.username = u ∧
        ((m.mtype = .daily ∧ m.used_for = some (.onDate d.iso)) ∨
         (m.mtype = .yearly ∧ m.used_for = some (.onYear d.year)) ∨
         m.used_for = none))) ∧
    (membershipFilter u d m = true →
      (((m.mtype = .daily ∧ m.used_for = some (.onDate d.iso)) ∧
          ¬ (m.mtype = .yearly ∧ m.used_for = some (.onYear d.year)) ∧
          ¬ m.used_for = none) ∨
       (¬ (m.mtype = .daily ∧ m.used_for = some (.onDate d.iso)) ∧
          (m.mtype = .yearly ∧ m.used_for = some (.onYear d.year)) ∧
          ¬ m.used_for = none) ∨
       (¬ (m.mtype = .daily ∧ m.used_for = some (.onDate d.iso)) ∧
          ¬ (m.mtype = .yearly ∧ m.used_for = some (.onYear d.year)) ∧
          m.used_for = none))) ∧
    (∀ (s : Store) (f : Flight) (x : Membership),
      matchedMembership s f = some x →
        x ∈ s.membership ∧ membershipFilter f.pilot.username f.fdate x = true) := by
  refine ⟨membershipFilter_iff u d m, ?_, ?_⟩
  · intro h
    rcases ((membershipFilter_iff u d m).mp h).2 with h1 | h1 | h1
    · exact Or.inl ⟨h1, by simp [h1.1], by simp [h1.2]⟩
    · exact Or.inr (Or.inl ⟨by simp [h1.1], h1, by simp [h1.2]⟩)
    · exact Or.inr (Or.inr ⟨by simp [h1], by simp [h1], h1⟩)
  · intro s f x hx
    have hx0 : s.membership.find? (membershipFilter f.pilot.username f.fdate)
        = some x := hx
    exact ⟨List.mem_of_find?_eq_some hx0, List.find?_some hx0⟩

/-- Witness for C1 at the sample data: the sample membership matches (it is
unconsumed) and falls in exactly the third case. -/
theorem process_flight_match_spec_witness :
    (¬ (wDaily.mtype = .daily ∧ wDaily.used_for = some (.onDate wDate.iso)) ∧
     ¬ (wDaily.mtype = .yearly ∧ wDaily.used_for = some (.onYear wDate.year)) ∧
     wDaily.used_for = none) ∨
    ((wDaily.mtype = .daily ∧ wDaily.used_for = some (.onDate wDate.iso)) ∧
     ¬ (wDaily.mtype = .yearly ∧ wDaily.used_for = some (.onYear wDate.year)) ∧
     ¬ wDaily.used_for = none) := by
  rcases (process_flight_match_spec "jan" wDate wDaily).2.1 (by decide)
      with h | h | h
  · exact Or.inr h
  · exact absurd h.2.1.1 (by decide)
  · exact Or.inl h

/- Shape lemmas about process_flight. -/

theorem process_flight_of_processed {s : Store} {f : Flight} {ex : FlightDoc}
    (h : s.flights.find? (fun d => d.id == f.id) = some ex)
    (hp : ex.processed = true) :
    process_flight s f = { store := s, alert := none, trace := [] } := by
  unfold process_flight
  rw [h]
  simp [hp]

theorem process_flight_of_absent {s : Store} {f : Flight}
    (h : s.flights.find? (fun d => d.id == f.id) = none) :
    process_flight s f =
      flight_body { s with flights := s.flights ++ [f.as_dict] } f
        [Op.insertFlight f.as_dict] := by
  unfold process_flight
  rw [h]

theorem process_flight_of_unprocessed {s : Store} {f : Flight} {ex : FlightDoc}
    (h : s.flights.find? (fun d => d.id == f.id) = some ex)
    (hp : ex.processed = false) :
    process_flight s f = flight_body s f [] := by
  unfold process_flight
  rw [h]
  simp [hp]

theorem flight_body_eq_none {s : Store} {f : Flight} (tr : List Op)
    (hm : matchedMembership s f = none) :
    flight_body s f tr =
      { store := { s with flights := markProcessed f.id s.flights },
        alert := some f.id,
        trace := tr ++ [Op.sendAlert f.id, Op.setProcessed f.id] } := by
  unfold flight_body
  rw [hm]

theorem flight_body_eq_daily {s : Store} {f : Flight} {m : Membership}
    (tr : List Op) (hm : matchedMembership s f = some m)
    (hmt : m.mtype = .daily) :
    flight_body s f tr =
      { store := { s with
          membership := consume m.mid (.onDate f.fdate.iso) s.membership,
          flights := markProcessed f.id s.flights },
        alert := none,
        trace := tr ++ [Op.setUsedFor m.mid (.onDate f.fdate.iso), Op.setProcessed f.id] } := by
  unfold flight_body
  rw [hm]
  dsimp only
  rw [hmt]

theorem flight_body_eq_yearly {s : Store} {f : Flight} {m : Membership}
    (tr : List Op) (hm : matchedMembership s f = some m)
    (hmt : m.mtype = .yearly) :
    flight_body s f tr =
      { store := { s with
          membership := consume m.mid (.onYear f.fdate.year) s.membership,
          flights := markProcessed f.id s.flights },
        alert := none,
        trace := tr ++ [Op.setUsedFor m.mid (.onYear f.fdate.year), Op.setProcessed f.id] } := by
  unfold flight_body
  rw [hm]
  dsimp only
  rw [hmt]

theorem flight_body_eq_other {s : Store} {f : Flight} {m : Membership}
    (tr : List Op) (hm : matchedMembership s f = some m)
    (hmt : m.mtype = .other) :
    flight_body s f tr =
      { store := { s with flights := markProcessed f.id s.flights },
        alert := none,
        trace := tr ++ [Op.setProcessed f.id] } := by
  unfold flight_body
  rw [hm]
  dsimp only
  rw [hmt]

theorem flight_body_flights (s : Store) (f : Flight) (tr : List Op) :
    (flight_body s f tr).store.flights = markProcessed f.id s.flights := by
  cases hm : matchedMembership s f with
  | none => rw [flight_body_eq_none tr hm]
  | some m =>
      cases hmt : m.mtype
      · rw [flight_body_eq_daily tr hm hmt]
      · rw [flight_body_eq_yearly tr hm hmt]
      · rw [flight_body_eq_other tr hm hmt]

theorem flight_body_transactions (s : Store) (f : Flight) (tr : List Op) :
    (flight_body s f tr).store.transactions = s.transactions := by
  cases hm : matchedMembership s f with
  | none => rw [flight_body_eq_none tr hm]
  | some m =>
      cases hmt : m.mtype
      · rw [flight_body_eq_daily tr hm hmt]
      · rw [flight_body_eq_yearly tr hm hmt]
      · rw [flight_body_eq_other tr hm hmt]

/-- C6: for every activity record whose id is already stored with
processed = true, `process_flight` stops immediately: the store is
untouched (no insert, no membership mutation), no alert is sent, and no
operation is issued at all. -/
theorem process_flight_idempotency_guard (s : Store) (f : Flight)
    (ex : FlightDoc)
    (h : s.flights.find? (fun d => d.id == f.id) = some ex)
    (hp : ex.processed = true) :
    process_flight s f = { store := s, alert := none, trace := [] } :=
  process_flight_of_processed h hp

/-- A sample store whose flights collection already holds the sample record
marked processed. -/
def wStoreProcessed : Store :=
  { transactions := [], membership := [wDaily],
    flights := [{ id := "fl1", pilot := wPilot, fdate := wDate, processed := true }] }

/-- Witness for C6: re-delivering the sample record to a store where it is
already processed changes nothing and sends nothing. -/
theorem process_flight_idempotency_guard_witness :
    process_flight wStoreProcessed wFlight
      = { store := wStoreProcessed, alert := none, trace := [] } :=
  process_flight_idempotency_guard wStoreProcessed wFlight
    { id := "fl1", pilot := wPilot, fdate := wDate, processed := true }
    (by decide) (by decide)

/-- C7: `process_transaction` classifies the amount through the fixed
amount-to-type lookup; an amount outside the table classifies as none
(unclassified) rather than an error, and in every case exactly one
notification carrying the transaction and the suggested classification is
emitted. -/
theorem process_transaction_classifies (table : List (Int × MembershipType))
    (s : Store) (t : Transaction) :
    (process_transaction table s t).notif = (t, classify table t.amount) ∧
    ((∀ e ∈ table, e.1 ≠ t.amount) →
      (process_transaction table s t).notif = (t, none)) := by
  constructor
  · rfl
  · intro h
    have hnone : table.find? (fun e => e.1 == t.amount) = none :=
      List.find?_eq_none.mpr (fun e he => by simp [h e he])
    simp [process_transaction, classify, hnone]

/-- Witness for C7: an amount absent from a concrete table yields the
unclassified notification. -/
theorem process_transaction_classifies_witness :
    (process_transaction [((150 : Int), MembershipType.daily)] wStore
        { id := "t1", amount := 999 }).notif
      = ({ id := "t1", amount := 999 }, none) :=
  (process_transaction_classifies [((150 : Int), MembershipType.daily)] wStore
      { id := "t1", amount := 999 }).2 (by decide)

theorem flight_body_trace (s : Store) (f : Flight) (tr : List Op) :
    ∃ tr2, (flight_body s f tr).trace = tr ++ tr2 ++ [Op.setProcessed f.id] ∧
      ∀ op ∈ tr2, op.isSetProcessed = false := by
  cases hm : matchedMembership s f with
  | none =>
      refine ⟨[Op.sendAlert f.id], ?_, ?_⟩
      · rw [flight_body_eq_none tr hm]
        simp
      · intro op hop
        simp at hop
        simp [hop, Op.isSetProcessed]
  | some m =>
      cases hmt : m.mtype
      · refine ⟨[Op.setUsedFor m.mid (.onDate f.fdate.iso)], ?_, ?_⟩
        · rw [flight_body_eq_daily tr hm hmt]
          simp
        · intro op hop
          simp at hop
          simp [hop, Op.isSetProcessed]
      · refine ⟨[Op.setUsedFor m.mid (.onYear f.fdate.year)], ?_, ?_⟩
        · rw [flight_body_eq_yearly tr hm hmt]
          simp
        · intro op hop
          simp at hop
          simp [hop, Op.isSetProcessed]
      · refine ⟨[], ?_, ?_⟩
        · rw [flight_body_eq_other tr hm hmt]
          simp
        · intro op hop
          simp at hop

/-- C8: for every activity record that passes the idempotency guard,
`process_flight` issues the processed-flag update as its very last
operation: the trace ends with it, and no earlier operation (insert,
used_for mutation, or no-match alert) is a processed-flag update — in both
the matched and the unmatched case. -/
theorem process_flight_processed_last (s : Store) (f : Flight)
    (h : ∀ ex, s.flights.find? (fun d => d.id == f.id) = some ex →
      ex.processed = false) :
    ∃ tr, (process_flight s f).trace = tr ++ [Op.setProcessed f.id] ∧
      ∀ op ∈ tr, op.isSetProcessed = false := by
  cases hf : s.flights.find? (fun d => d.id == f.id) with
  | none =>
      rw [process_flight_of_absent hf]
      obtain ⟨tr2, htr, hops⟩ :=
        flight_body_trace { s with flights := s.flights ++ [f.as_dict] } f
          [Op.insertFlight f.as_dict]
      refine ⟨Op.insertFlight f.as_dict :: tr2, by simpa using htr, ?_⟩
      intro op hop
      rcases List.mem_cons.mp hop with rfl | hop2
      · rfl
      · exact hops op hop2
  | some ex =>
      rw [process_flight_of_unprocessed hf (h ex hf)]
      obtain ⟨tr2, htr, hops⟩ := flight_body_trace s f []
      exact ⟨tr2, by simpa using htr, hops⟩

/-- Witness for C8: processing the sample record against the sample store
(where it is not yet stored) ends with the processed-flag update. -/
theorem process_flight_processed_last_witness :
    ∃ tr, (process_flight wStore wFlight).trace = tr ++ [Op.setProcessed wFlight.id] ∧
      ∀ op ∈ tr, op.isSetProcessed = false :=
  process_flight_processed_last wStore wFlight
    (fun ex hex => by simp [wStore] at hex)

/- Frame lemmas: which collections each handler can touch. -/

theorem store_transaction_flights (s : Store) (t : Transaction) :
    (store_transaction s t).flights = s.flights := by
  unfold store_transaction
  split <;> rfl

theorem process_transaction_flights (table : List (Int × MembershipType))
    (s : Store) (t : Transaction) :
    (process_transaction table s t).store.flights = s.flights := by
  unfold process_transaction
  dsimp only
  exact store_transaction_flights s t

theorem pair_of_parse_error {resolve : String → Option Nat} {today : String}
    {text : String} {e : PairErr} (s : Store)
    (hp : parse_pair_msg resolve text = .error e) :
    pair resolve today s text =
      if e.isValueError then
        { store := s, outcome := .replied (e.msg ++ ". Please see /help") }
      else
        { store := s, outcome := .propagated e } := by
  unfold pair
  rw [hp]

theorem pair_of_conflict {resolve : String → Option Nat} {today : String}
    {text : String} {tid : String} {mt : MembershipType} {p : Pilot}
    {s : Store} {ex : Membership}
    (hp : parse_pair_msg resolve text = .ok (tid, mt, p))
    (hf : s.membership.find? (fun m => m.transaction_id == tid) = some ex) :
    pair resolve today s text =
      { store := s, outcome := .replied (conflict_msg ex) } := by
  unfold pair
  rw [hp]
  dsimp only
  rw [hf]

theorem pair_of_fresh {resolve : String → Option Nat} {today : String}
    {text : String} {tid : String} {mt : MembershipType} {p : Pilot}
    {s : Store}
    (hp : parse_pair_msg resolve text = .ok (tid, mt, p))
    (hf : s.membership.find? (fun m => m.transaction_id == tid) = none) :
    pair resolve today s text =
      { store := { s with membership := s.membership ++
          [{ mid := freshMid s, transaction_id := tid, mtype := mt,
             pilot := p, date_paired := today, used_for := none }] },
        outcome := .replied "Okay, paired" } := by
  unfold pair
  rw [hp]
  dsimp only
  rw [hf]

theorem pair_store_flights (resolve : String → Option Nat) (today : String)
    (s : Store) (text : String) :
    (pair resolve today s text).store.flights = s.flights := by
  cases hp : parse_pair_msg resolve text with
  | error e =>
      rw [pair_of_parse_error s hp]
      by_cases hv : e.isValueError = true <;> simp [hv]
  | ok trip =>
      obtain ⟨tid, mt, p⟩ := trip
      cases hf : s.membership.find? (fun m => m.transaction_id == tid) with
      | none => rw [pair_of_fresh hp hf]
      | some ex => rw [pair_of_conflict hp hf]

/- Monotonicity of the processed flag. -/

theorem processed_mono_flight (s : Store) (f : Flight) (fid : String)
    (h : flightProcessed s fid = some true) :
    flightProcessed (process_flight s f).store fid = some true := by
  obtain ⟨d, hd, hdp⟩ : ∃ d, s.flights.find? (fun x => x.id == fid) = some d ∧
      d.processed = true := by
    unfold flightProcessed at h
    cases hq : s.flights.find? (fun x => x.id == fid) with
    | none => rw [hq] at h; simp at h
    | some d =>
        rw [hq] at h
        simp at h
        exact ⟨d, rfl, h⟩
  by_cases hid : f.id = fid
  · have hg : s.flights.find? (fun x => x.id == f.id) = some d := by
      rw [hid]; exact hd
    rw [process_flight_of_processed hg hdp]
    unfold flightProcessed
    rw [hd]
    simp [hdp]
  · have hdisj : ∀ x : FlightDoc, (x.id == f.id) = true → (x.id == fid) = false := by
      intro x hx
      have hxid : x.id = f.id := by simpa using hx
      rw [hxid]
      exact beq_eq_false_iff_ne.mpr hid
    have hpatch : ∀ x : FlightDoc, (x.id == f.id) = true →
        ((setProcessedPatch x).id == fid) = false := by
      intro x hx
      simpa [setProcessedPatch] using hdisj x hx
    cases hg : s.flights.find? (fun x => x.id == f.id) with
    | none =>
        rw [process_flight_of_absent hg]
        unfold flightProcessed
        rw [flight_body_flights]
        unfold markProcessed
        rw [find?_updateOne_disjoint _ hdisj hpatch]
        rw [find?_append_some _ hd]
        simp [hdp]
    | some ex =>
        by_cases hex : ex.processed = true
        · rw [process_flight_of_processed hg hex]
          unfold flightProcessed
          rw [hd]
          simp [hdp]
        · rw [process_flight_of_unprocessed hg (by simpa using hex)]
          unfold flightProcessed
          rw [flight_body_flights]
          unfold markProcessed
          rw [find?_updateOne_disjoint _ hdisj hpatch]
          rw [hd]
          simp [hdp]

theorem applyPipe_processed_mono (s : Store) (op : PipeOp) (fid : String)
    (h : flightProcessed s fid = some true) :
    flightProcessed (applyPipe s op) fid = some true := by
  cases op with
  | flightOp f => exact processed_mono_flight s f fid h
  | transOp table t =>
      unfold applyPipe flightProcessed
      rw [process_transaction_flights]
      exact h
  | pairOp resolve today text =>
      unfold applyPipe flightProcessed
      rw [pair_store_flights]
      exact h

/-- C9: the processed flag of a stored activity record is monotone: once it
is true, no sequence of pipeline operations (activity processing,
transaction processing, pairing commands) ever sets it back to false. -/
theorem flight_processed_monotone (s : Store) (ops : List PipeOp) (fid : String)
    (h : flightProcessed s fid = some true) :
    flightProcessed (runPipe s ops) fid = some true := by
  induction ops generalizing s with
  | nil => exact h
  | cons op rest ih =>
      have hstep := applyPipe_processed_mono s op fid h
      have hrun : runPipe s (op :: rest) = runPipe (applyPipe s op) rest := rfl
      rw [hrun]
      exact ih (applyPipe s op) hstep

/-- A sample operation sequence exercising all three handlers. -/
def wOps : List PipeOp :=
  [.flightOp { id := "fl2", pilot := wPilot, fdate := wDate },
   .transOp [] { id := "t9", amount := 5 },
   .pairOp wResolve "2024-05-02" "/pair 77 yearly jan"]

/-- Witness for C9: the sample processed record stays processed across a
concrete sequence of all three pipeline operations. -/
theorem flight_processed_monotone_witness :
    flightProcessed wStoreProcessed "fl1" = some true ∧
    flightProcessed (runPipe wStoreProcessed wOps) "fl1" = some true :=
  ⟨by decide, flight_processed_monotone wStoreProcessed wOps "fl1" (by decide)⟩

theorem processed_after_guard (s : Store) (f : Flight)
    (h : ∀ ex, s.flights.find? (fun d => d.id == f.id) = some ex →
      ex.processed = false) :
    flightProcessed (process_flight s f).store f.id = some true := by
  cases hg : s.flights.find? (fun d => d.id == f.id) with
  | none =>
      rw [process_flight_of_absent hg]
      unfold flightProcessed
      rw [flight_body_flights]
      unfold markProcessed
      have hbase : (s.flights ++ [f.as_dict]).find? (fun d => d.id == f.id)
          = some f.as_dict := by
        rw [find?_append_none _ hg]
        simp [List.find?, Flight.as_dict]
      rw [find?_updateOne_patch hbase (by simp [setProcessedPatch, Flight.as_dict])]
      simp [setProcessedPatch]
  | some ex =>
      rw [process_flight_of_unprocessed hg (h ex hg)]
      unfold flightProcessed
      rw [flight_body_flights]
      unfold markProcessed
      have hq : (ex.id == f.id) = true := by
        simpa using List.find?_some hg
      rw [find?_updateOne_patch hg (by simpa [setProcessedPatch] using hq)]
      simp [setProcessedPatch]

/-- C10: when the matched membership's type is neither daily nor yearly,
`process_flight` leaves the whole membership collection unchanged (in
particular the matched membership keeps its prior `used_for`), sends no
alert, and still sets the record's processed flag. -/
theorem process_flight_other_type (s : Store) (f : Flight) (m : Membership)
    (hguard : ∀ ex, s.flights.find? (fun d => d.id == f.id) = some ex →
      ex.processed = false)
    (hm : matchedMembership s f = some m)
    (hother : m.mtype = .other) :
    (process_flight s f).store.membership = s.membership ∧
    (process_flight s f).alert = none ∧
    flightProcessed (process_flight s f).store f.id = some true := by
  have hmain : (process_flight s f).store.membership = s.membership ∧
      (process_flight s f).alert = none := by
    cases hg : s.flights.find? (fun d => d.id == f.id) with
    | none =>
        have hm' : matchedMembership
            { s with flights := s.flights ++ [f.as_dict] } f = some m := hm
        rw [process_flight_of_absent hg,
          flight_body_eq_other [Op.insertFlight f.as_dict] hm' hother]
        exact ⟨rfl, rfl⟩
    | some ex =>
        rw [process_flight_of_unprocessed hg (hguard ex hg),
          flight_body_eq_other [] hm hother]
        exact ⟨rfl, rfl⟩
  exact ⟨hmain.1, hmain.2, processed_after_guard s f hguard⟩

/-- A sample membership of a type beyond daily and yearly. -/
def wOther : Membership :=
  { mid := 5, transaction_id := "555", mtype := .other, pilot := wPilot,
    date_paired := "2024-01-01", used_for := none }

/-- A sample store holding only the extra-typed membership. -/
def wStoreOther : Store :=
  { transactions := [], membership := [wOther], flights := [] }

/-- Witness for C10: the sample record matches the extra-typed membership;
nothing about the membership changes, no alert, and the record ends up
processed. -/
theorem process_flight_other_type_witness :
    (process_flight wStoreOther wFlight).store.membership = wStoreOther.membership ∧
    (process_flight wStoreOther wFlight).alert = none ∧
    flightProcessed (process_flight wStoreOther wFlight).store wFlight.id = some true :=
  process_flight_other_type wStoreOther wFlight wOther
    (fun ex hex => by simp [wStoreOther] at hex) (by decide) (by decide)

/-- C2 counterexample: a store holding a daily membership with used_for
null for pilot jan and an activity record by jan on 2024-05-01 — but the
stored record is already marked processed, so `process_flight` stops and
the membership's used_for is not set to the record's date, contradicting
the claim as stated (which quantifies over every such store). -/
theorem daily_membership_consumption_cex :
    (wDaily ∈ wStoreProcessed.membership ∧ wDaily.mtype = .daily ∧
     wDaily.used_for = none ∧ wDaily.pilot.username = wFlight.pilot.username ∧
     ({ id := "fl1", pilot := wPilot, fdate := wDate, processed := true } : FlightDoc)
        ∈ wStoreProcessed.flights ∧ wFlight.id = "fl1") ∧
    (process_flight wStoreProcessed wFlight).store.membership.find?
        (fun x => x.mid == wDaily.mid) ≠
      some { wDaily with used_for := some (.onDate wFlight.fdate.iso) } := by
  decide

/-- C2 (amended): in a store whose membership ids are unique, where the
daily membership with used_for null is the membership the query finds for
the record's pilot and date, and where the record (and the second record)
are not yet stored, processing the record sets the membership's used_for
to the record's date and marks the record processed without alert; a
second record by the same pilot on the same date then matches the same
(now consumed) membership and produces no alert either. -/
theorem daily_membership_consumption (s : Store) (r1 r2 : Flight)
    (m : Membership)
    (hm : matchedMembership s r1 = some m)
    (hdaily : m.mtype = .daily)
    (_hnull : m.used_for = none)
    (hmid : ∀ x ∈ s.membership, x.mid = m.mid → x = m)
    (h1 : s.flights.find? (fun d => d.id == r1.id) = none)
    (h2p : r2.pilot.username = r1.pilot.username)
    (h2d : r2.fdate = r1.fdate)
    (h2id : r2.id ≠ r1.id)
    (h2new : s.flights.find? (fun d => d.id == r2.id) = none) :
    ((process_flight s r1).store.membership.find? (fun x => x.mid == m.mid)
        = some { m with used_for := some (.onDate r1.fdate.iso) }) ∧
    flightProcessed (process_flight s r1).store r1.id = some true ∧
    (process_flight s r1).alert = none ∧
    matchedMembership (process_flight s r1).store r2
        = some { m with used_for := some (.onDate r1.fdate.iso) } ∧
    (process_flight (process_flight s r1).store r2).alert = none := by
  have hm0 : s.membership.find? (membershipFilter r1.pilot.username r1.fdate)
      = some m := hm
  have hfm : membershipFilter r1.pilot.username r1.fdate m = true := by
    simpa using List.find?_some hm0
  have hmem : m ∈ s.membership := List.mem_of_find?_eq_some hm0
  have hqe : ∀ x ∈ s.membership, (x.mid == m.mid) = true → x = m :=
    fun x hx hq => hmid x hx (by simpa using hq)
  have hm' : matchedMembership
      { s with flights := s.flights ++ [r1.as_dict] } r1 = some m := hm
  have hσ : process_flight s r1 =
      { store := { s with
          membership := consume m.mid (.onDate r1.fdate.iso) s.membership,
          flights := markProcessed r1.id (s.flights ++ [r1.as_dict]) },
        alert := none,
        trace := [Op.insertFlight r1.as_dict,
          Op.setUsedFor m.mid (.onDate r1.fdate.iso), Op.setProcessed r1.id] } := by
    rw [process_flight_of_absent h1, flight_body_eq_daily _ hm' hdaily]
    rfl
  have husername : m.pilot.username = r1.pilot.username :=
    ((membershipFilter_iff _ _ _).mp hfm).1
  have hpm : membershipFilter r1.pilot.username r1.fdate
      { m with used_for := some (.onDate r1.fdate.iso) } = true := by
    apply (membershipFilter_iff _ _ _).mpr
    exact ⟨husername, Or.inl ⟨hdaily, rfl⟩⟩
  have h4 : matchedMembership (process_flight s r1).store r2
      = some { m with used_for := some (.onDate r1.fdate.iso) } := by
    rw [hσ]
    unfold matchedMembership
    rw [h2p, h2d]
    unfold consume
    exact find?_updateOne_first hm0 (by simp) hqe hpm
  refine ⟨?_, ?_, ?_, h4, ?_⟩
  · rw [hσ]
    unfold consume
    exact find?_updateOne_self hmem (by simp) hqe (by simp)
  · exact processed_after_guard s r1 (fun ex hex => by simp [h1] at hex)
  · rw [hσ]
  · have hdisj : ∀ x : FlightDoc, (x.id == r1.id) = true →
        (x.id == r2.id) = false := by
      intro x hx
      have hxid : x.id = r1.id := by simpa using hx
      rw [hxid]
      exact beq_eq_false_iff_ne.mpr (fun hc => h2id hc.symm)
    have hpatch2 : ∀ x : FlightDoc, (x.id == r1.id) = true →
        ((setProcessedPatch x).id == r2.id) = false :=
      fun x hx => by simpa [setProcessedPatch] using hdisj x hx
    have hr12 : (r1.id == r2.id) = false :=
      beq_eq_false_iff_ne.mpr (fun hc => h2id hc.symm)
    have hguard2 : (markProcessed r1.id (s.flights ++ [r1.as_dict])).find?
        (fun d => d.id == r2.id) = none := by
      unfold markProcessed
      rw [find?_updateOne_disjoint _ hdisj hpatch2, find?_append_none _ h2new]
      simp [List.find?, Flight.as_dict, hr12]
    rw [hσ]
    have hmatch2 : matchedMembership
        { transactions := s.transactions,
          membership := consume m.mid (.onDate r1.fdate.iso) s.membership,
          flights := markProcessed r1.id (s.flights ++ [r1.as_dict]) ++
            [r2.as_dict] } r2
        = some { m with used_for := some (.onDate r1.fdate.iso) } := by
      rw [hσ] at h4
      exact h4
    rw [process_flight_of_absent hguard2,
      flight_body_eq_daily _ hmatch2 hdaily]

/-- Witness for C2 (amended): concrete single-membership store, two
distinct records by the same pilot on the same date. -/
theorem daily_membership_consumption_witness :
    ((process_flight wStore wFlight).store.membership.find?
        (fun x => x.mid == wDaily.mid)
        = some { wDaily with used_for := some (.onDate wFlight.fdate.iso) }) ∧
    flightProcessed (process_flight wStore wFlight).store wFlight.id = some true ∧
    (process_flight wStore wFlight).alert = none ∧
    matchedMembership (process_flight wStore wFlight).store
        { id := "fl2", pilot := wPilot, fdate := wDate }
        = some { wDaily with used_for := some (.onDate wFlight.fdate.iso) } ∧
    (process_flight (process_flight wStore wFlight).store
        { id := "fl2", pilot := wPilot, fdate := wDate }).alert = none :=
  daily_membership_consumption wStore wFlight
    { id := "fl2", pilot := wPilot, fdate := wDate } wDaily
    (by decide) (by decide) (by decide)
    (by decide) (by decide) (by decide) (by decide) (by decide) (by decide)

/-- C3: when a membership with the command's transaction id already exists,
`pair` replies with the conflict message — which spells out the existing
membership's type and its pilot's username (see `conflict_msg`) — and the
store, in particular the membership collection, is unchanged. -/
theorem pair_conflict_rejected (resolve : String → Option Nat) (today : String)
    (s : Store) (text : String) (tid : String) (mt : MembershipType) (p : Pilot)
    (hp : parse_pair_msg resolve text = .ok (tid, mt, p))
    (hex : ∃ x ∈ s.membership, x.transaction_id = tid) :
    ∃ ex ∈ s.membership, ex.transaction_id = tid ∧
      pair resolve today s text
        = { store := s, outcome := .replied (conflict_msg ex) } := by
  obtain ⟨x, hxmem, hxt⟩ := hex
  cases hf : s.membership.find? (fun mm => mm.transaction_id == tid) with
  | none =>
      have hnx := List.find?_eq_none.mp hf x hxmem
      simp [hxt] at hnx
  | some ex =>
      refine ⟨ex, List.mem_of_find?_eq_some hf, ?_, pair_of_conflict hp hf⟩
      simpa using List.find?_some hf

/-- Witness for C3: pairing transaction 123 a second time is rejected with
the conflict reply and leaves the sample store unchanged. -/
theorem pair_conflict_rejected_witness :
    ∃ ex ∈ wStore.membership, ex.transaction_id = "123" ∧
      pair wResolve "2024-06-01" wStore "/pair 123 yearly jan"
        = { store := wStore, outcome := .replied (conflict_msg ex) } :=
  pair_conflict_rejected wResolve "2024-06-01" wStore "/pair 123 yearly jan"
    "123" .yearly wPilot rfl ⟨wDaily, by decide, by decide⟩

/-- C4: a well-formed, non-conflicting pair command appends exactly one new
membership document, carrying the given transaction id, resolved type and
pilot, `date_paired` the current date, and `used_for` unset (the inserted
document omits the field, which Mongo's null-equality queries treat as
null), and replies "Okay, paired". -/
theorem pair_success_inserts (resolve : String → Option Nat) (today : String)
    (s : Store) (text : String) (tid : String) (mt : MembershipType) (p : Pilot)
    (hp : parse_pair_msg resolve text = .ok (tid, mt, p))
    (hnone : s.membership.find? (fun mm => mm.transaction_id == tid) = none) :
    pair resolve today s text =
      { store := { s with membership := s.membership ++
          [{ mid := freshMid s, transaction_id := tid, mtype := mt,
             pilot := p, date_paired := today, used_for := none }] },
        outcome := .replied "Okay, paired" } :=
  pair_of_fresh hp hnone

/-- Witness for C4: pairing a fresh transaction id against the sample
store inserts exactly the expected document. -/
theorem pair_success_inserts_witness :
    pair wResolve "2024-06-01" wStore "/pair 999 yearly jan" =
      { store := { wStore with membership := wStore.membership ++
          [{ mid := freshMid wStore, transaction_id := "999", mtype := .yearly,
             pilot := wPilot, date_paired := "2024-06-01", used_for := none }] },
        outcome := .replied "Okay, paired" } :=
  pair_success_inserts wResolve "2024-06-01" wStore "/pair 999 yearly jan"
    "999" .yearly wPilot rfl (by decide)

/-- Whether the outcome of a pair invocation was a reply sent back to the
invoking operator. -/
def PairOutcome.isReplied : PairOutcome → Bool
  | .replied _ => true
  | .propagated _ => false

/-- C5 counterexample: a pilot lookup failure is a validation failure of
the pairing flow that is NOT reported back to the invoking operator — the
except clause of `pair` catches only ValueError, so the lookup error
escapes the handler instead of producing a reply. -/
theorem pair_lookup_failure_not_reported :
    parse_pair_msg (fun _ => none) "/pair 123 daily ghost"
      = .error (.lookupFailed "ghost") ∧
    (pair (fun _ => none) "2024-06-03" wStore "/pair 123 daily ghost").outcome
      = .propagated (.lookupFailed "ghost") ∧
    ((pair (fun _ => none) "2024-06-03" wStore "/pair 123 daily ghost").outcome).isReplied
      = false :=
  ⟨rfl, rfl, rfl⟩

/-- C5 (amended): validation failures of the pairing command are detected
in the order wrong argument count (reporting the expected count of 3),
then non-numeric transaction id, then unknown membership type, then pilot
lookup failure; the first three are reported back to the invoking operator
with the error text, while a pilot lookup failure propagates to the caller
instead of being reported; no store state is written on any failure
path. -/
theorem pair_validation_order (resolve : String → Option Nat) (today : String)
    (s : Store) (text : String) :
    ((partsOf text).length ≠ 4 →
      parse_pair_msg resolve text
        = .error (.badCount ((partsOf text).length - 1))) ∧
    ((partsOf text).length = 4 → isNumericStr (argOf text 1) = false →
      parse_pair_msg resolve text = .error .notNumeric) ∧
    ((partsOf text).length = 4 → isNumericStr (argOf text 1) = true →
      ∀ e, MembershipType.from_str (argOf text 2) = .error e →
        parse_pair_msg resolve text = .error e) ∧
    ((partsOf text).length = 4 → isNumericStr (argOf text 1) = true →
      ∀ mt, MembershipType.from_str (argOf text 2) = .ok mt →
        resolve (argOf text 3) = none →
        parse_pair_msg resolve text = .error (.lookupFailed (argOf text 3))) ∧
    (∀ e, parse_pair_msg resolve text = .error e →
      (pair resolve today s text).store = s ∧
      (e.isValueError = true →
        (pair resolve today s text).outcome
          = .replied (e.msg ++ ". Please see /help")) ∧
      (e.isValueError = false →
        (pair resolve today s text).outcome = .propagated e)) := by
  refine ⟨?_, ?_, ?_, ?_, ?_⟩
  · intro h
    have hb : ((partsOf text).length != 4) = true := by
      simpa [bne_iff_ne] using h
    simp [parse_pair_msg, hb]
  · intro h4 hnum
    have hb : ((partsOf text).length != 4) = false := by simp [h4]
    simp [parse_pair_msg, hb, hnum]
  · intro h4 hnum e he
    have hb : ((partsOf text).length != 4) = false := by simp [h4]
    simp [parse_pair_msg, hb, hnum, he]
  · intro h4 hnum mt hmt hres
    have hb : ((partsOf text).length != 4) = false := by simp [h4]
    simp [parse_pair_msg, hb, hnum, hmt, loadPilot, hres]
  · intro e he
    rw [pair_of_parse_error s he]
    refine ⟨?_, fun hv => by simp [hv], fun hv => by simp [hv]⟩
    by_cases hv : e.isValueError = true <;> simp [hv]

/-- Witness for C5 (amended): a two-argument command fails with the
argument-count error, the reply reports the expected count, and the store
is untouched. -/
theorem pair_validation_order_witness :
    parse_pair_msg wResolve "/pair 1 2" = .error (.badCount 2) ∧
    (pair wResolve "2024-06-02" wStore "/pair 1 2").store = wStore ∧
    (pair wResolve "2024-06-02" wStore "/pair 1 2").outcome
      = .replied "Expected 3 arguments, got 2. Please see /help" := by
  have h := pair_validation_order wResolve "2024-06-02" wStore "/pair 1 2"
  have hp := h.1 (by decide)
  refine ⟨hp, (h.2.2.2.2 _ hp).1, ?_⟩
  have hout := (h.2.2.2.2 _ hp).2.1 (by decide)
  rw [hout]
  rfl

end Cashier
